import Mathlib

/-!
Verification of `shawnaiutils` (`src/shawnaiutils/callbacks.py`).

The repository exposes a single function `standard_callbacks(run_name, monitor,
patience)` that derives a timestamped run directory, requests creation of two
subdirectories, derives an optimization direction from the monitored metric
name, prints status lines, and returns five preconfigured Keras callback
objects.

Shallow embedding decisions:
* The current wall-clock timestamp (`datetime.now().strftime('%Y%m%d_%H%M%S')`)
  is made an explicit `timestamp` argument of the embedded function.
* Each Keras callback constructor call is embedded as a plain configuration
  record holding exactly the keyword arguments the source passes.
* The two `os.makedirs(..., exist_ok=True)` side effects are recorded as a
  trace of requested directory creations (path plus the `exist_ok` flag), and
  the three `print` calls as a list of the printed lines.
* `standard_callbacksExc` runs the directory-creation trace against an
  arbitrary fallible filesystem oracle, propagating the first error uncaught,
  which models Python exception propagation from `os.makedirs`.
* Python float literals `0.5` and `1e-6` are exactly representable and are
  embedded as the rationals `1/2` and `1/1000000`.
* `os.path.join` of relative POSIX components is embedded as joining with "/";
  Python `str.lower()` as a character-wise `Char.toLower` map; substring
  membership `k in s` as a list-of-characters search.
-/

namespace Shawnaiutils

/-- Keras `mode` argument: `'max'` or `'min'` (maximize vs minimize). -/
inductive Mode where
  | max
  | min
deriving DecidableEq, Repr

/-- Configuration record for `keras.callbacks.ModelCheckpoint` as constructed
by the source. -/
structure ModelCheckpointSpec where
  filepath : String
  monitor : String
  mode : Mode
  save_best_only : Bool
  save_weights_only : Bool
  verbose : Nat
deriving DecidableEq, Repr

/-- Configuration record for `keras.callbacks.EarlyStopping` as constructed
by the source. -/
structure EarlyStoppingSpec where
  monitor : String
  patience : Int
  mode : Mode
  restore_best_weights : Bool
  verbose : Nat
deriving DecidableEq, Repr

/-- Configuration record for `keras.callbacks.ReduceLROnPlateau` as
constructed by the source (floats embedded as exact rationals). -/
structure ReduceLROnPlateauSpec where
  monitor : String
  factor : Rat
  patience : Int
  min_lr : Rat
  mode : Mode
  verbose : Nat
deriving DecidableEq, Repr

/-- Configuration record for `keras.callbacks.TensorBoard` as constructed by
the source. -/
structure TensorBoardSpec where
  log_dir : String
  histogram_freq : Nat
  write_graph : Bool
  update_freq : String
deriving DecidableEq, Repr

/-- Configuration record for `keras.callbacks.CSVLogger` as constructed by
the source. -/
structure CSVLoggerSpec where
  filename : String
  append : Bool
  separator : String
deriving DecidableEq, Repr

/-- A Keras callback object, tagged by which constructor produced it. -/
inductive Callback where
  | modelCheckpoint (spec : ModelCheckpointSpec)
  | earlyStopping (spec : EarlyStoppingSpec)
  | reduceLROnPlateau (spec : ReduceLROnPlateauSpec)
  | tensorBoard (spec : TensorBoardSpec)
  | csvLogger (spec : CSVLoggerSpec)
deriving DecidableEq, Repr

/-- The kind of an observer spec, for stating ordering properties. -/
inductive CallbackKind where
  | checkpoint
  | reduceLR
  | earlyStop
  | metricLog
  | csvLog
deriving DecidableEq, Repr

/-- The kind of a callback object. -/
def Callback.kind : Callback → CallbackKind
  | .modelCheckpoint _ => .checkpoint
  | .earlyStopping _ => .earlyStop
  | .reduceLROnPlateau _ => .reduceLR
  | .tensorBoard _ => .metricLog
  | .csvLogger _ => .csvLog

/-- The `mode` carried by a callback, for the three kinds that have one. -/
def Callback.mode? : Callback → Option Mode
  | .modelCheckpoint s => some s.mode
  | .earlyStopping s => some s.mode
  | .reduceLROnPlateau s => some s.mode
  | .tensorBoard _ => none
  | .csvLogger _ => none

/-- A recorded `os.makedirs(path, exist_ok=...)` request. -/
structure MakedirsCall where
  path : String
  exist_ok : Bool
deriving DecidableEq, Repr

/-- Everything observable about one invocation of `standard_callbacks`:
the directory-creation requests, the printed lines, and the returned list. -/
structure BuildResult where
  makedirs_calls : List MakedirsCall
  stdout_lines : List String
  callbacks : List Callback
deriving DecidableEq, Repr

/-- `os.path.join a b` for relative POSIX path components. -/
def pathJoin (a b : String) : String := a ++ "/" ++ b

/-- Python `str.lower()`: character-wise lowercasing. -/
def strLower (s : String) : String := ⟨s.data.map Char.toLower⟩

/-- Contiguous-sublist search on character lists (helper for `inStr`). -/
def listContainsSub (needle : List Char) : List Char → Bool
  | [] => needle.isEmpty
  | c :: t => List.isPrefixOf needle (c :: t) || listContainsSub needle t

/-- Python substring membership `needle in hay`. -/
def inStr (needle hay : String) : Bool := listContainsSub needle.data hay.data

/-- Embedding of `standard_callbacks(run_name, monitor, patience)` from
`src/shawnaiutils/callbacks.py`, with the wall-clock-derived `timestamp`
string made an explicit argument. -/
def standard_callbacks (run_name monitor : String) (patience : Int)
    (timestamp : String) : BuildResult :=
  let run_dir := pathJoin "runs" (run_name ++ "_" ++ timestamp)
  let checkpoint_path := pathJoin (pathJoin run_dir "checkpoints") "best_model.keras"
  let csv_path := pathJoin run_dir (run_name ++ "_training_log.csv")
  let tensorboard_log_dir := pathJoin run_dir "logs"
  let monitor_lower := strLower monitor
  let mode :=
    if ["acc", "auc", "precision", "recall"].any (fun k => inStr k monitor_lower) then
      Mode.max
    else
      Mode.min
  let checkpoint := Callback.modelCheckpoint
    { filepath := checkpoint_path
      monitor := monitor
      mode := mode
      save_best_only := true
      save_weights_only := false
      verbose := 1 }
  let early_stop := Callback.earlyStopping
    { monitor := monitor
      patience := patience
      mode := mode
      restore_best_weights := true
      verbose := 1 }
  let reduce_lr := Callback.reduceLROnPlateau
    { monitor := monitor
      factor := 1/2
      patience := 3
      min_lr := 1/1000000
      mode := mode
      verbose := 1 }
  let tensorboard := Callback.tensorBoard
    { log_dir := tensorboard_log_dir
      histogram_freq := 1
      write_graph := true
      update_freq := "epoch" }
  let csv_logger := Callback.csvLogger
    { filename := csv_path
      append := false
      separator := "," }
  { makedirs_calls :=
      [⟨pathJoin run_dir "checkpoints", true⟩, ⟨pathJoin run_dir "logs", true⟩]
    stdout_lines :=
      ["\x1b[92m[CALLBACKS]\x1b[0m Initialized for run: " ++ run_name,
       "  → Logs: " ++ tensorboard_log_dir,
       "  → Checkpoints: " ++ checkpoint_path]
    callbacks := [checkpoint, reduce_lr, early_stop, tensorboard, csv_logger] }

/-- Run a list of recorded `makedirs` requests against a fallible filesystem
oracle, stopping at (and propagating) the first error. -/
def runMakedirs {ε : Type} (mk : String → Bool → Except ε Unit) :
    List MakedirsCall → Except ε Unit
  | [] => Except.ok ()
  | c :: rest =>
    match mk c.path c.exist_ok with
    | Except.error e => Except.error e
    | Except.ok _ => runMakedirs mk rest

/-- `standard_callbacks` run against a fallible filesystem oracle: the first
directory-creation error aborts the call uncaught (nothing is returned);
otherwise the full result is produced. -/
def standard_callbacksExc {ε : Type} (mk : String → Bool → Except ε Unit)
    (run_name monitor : String) (patience : Int) (timestamp : String) :
    Except ε BuildResult :=
  let r := standard_callbacks run_name monitor patience timestamp
  match runMakedirs mk r.makedirs_calls with
  | Except.error e => Except.error e
  | Except.ok _ => Except.ok r

end Shawnaiutils

namespace Shawnaiutils

/-- C1: for every monitor string that contains, case-insensitively, "acc",
"auc", "precision", or "recall" as a substring, the derived direction is
maximize (mode 'max'); otherwise it is minimize (mode 'min'); and this
direction is carried by exactly the Checkpoint, ReduceLR and EarlyStop specs
(positions 0, 1, 2 of the returned list). -/
theorem C1_direction_from_monitor (run_name monitor : String) (patience : Int)
    (ts : String) :
    (standard_callbacks run_name monitor patience ts).callbacks.map Callback.mode? =
      (if ["acc", "auc", "precision", "recall"].any (fun k => inStr k (strLower monitor)) then
        [some Mode.max, some Mode.max, some Mode.max, none, none]
      else
        [some Mode.min, some Mode.min, some Mode.min, none, none]) := by
  cases h : ["acc", "auc", "precision", "recall"].any (fun k => inStr k (strLower monitor)) with
  | true => simp [standard_callbacks, Callback.mode?, h]
  | false => simp [standard_callbacks, Callback.mode?, h]

/-- C2: every invocation returns exactly five observer specs, in the fixed
order Checkpoint, ReduceLR, EarlyStop, MetricLog (TensorBoard), CsvLog. -/
theorem C2_five_specs_fixed_order (run_name monitor : String) (patience : Int)
    (ts : String) :
    (standard_callbacks run_name monitor patience ts).callbacks.map Callback.kind =
      [CallbackKind.checkpoint, CallbackKind.reduceLR, CallbackKind.earlyStop,
       CallbackKind.metricLog, CallbackKind.csvLog] := rfl

/-- C3: the ReduceLR spec always has patience 3, factor 1/2 and floor
learning rate 1/1000000 (the exact values of the Python floats 0.5 and 1e-6),
independent of the `patience` argument, while the EarlyStop spec's patience
equals the caller-supplied `patience` argument. -/
theorem C3_reduce_lr_fixed_early_stop_patience (run_name monitor : String)
    (patience : Int) (ts : String) :
    (∃ s, ((standard_callbacks run_name monitor patience ts).callbacks)[1]? =
        some (Callback.reduceLROnPlateau s) ∧
      s.patience = 3 ∧ s.factor = 1/2 ∧ s.min_lr = 1/1000000) ∧
    (∃ s, ((standard_callbacks run_name monitor patience ts).callbacks)[2]? =
        some (Callback.earlyStopping s) ∧
      s.patience = patience) :=
  ⟨⟨_, rfl, rfl, rfl, rfl⟩, ⟨_, rfl, rfl⟩⟩

/-- C4: the CsvLog spec's filename is
`runs/<run_name>_<timestamp>/<run_name>_training_log.csv`, it overwrites
rather than appends, and its field separator is a comma. -/
theorem C4_csv_logger_spec (run_name monitor : String) (patience : Int)
    (ts : String) :
    ∃ s, ((standard_callbacks run_name monitor patience ts).callbacks)[4]? =
        some (Callback.csvLogger s) ∧
      s.filename =
        "runs/" ++ run_name ++ "_" ++ ts ++ "/" ++ run_name ++ "_training_log.csv" ∧
      s.append = false ∧ s.separator = "," := by
  refine ⟨_, rfl, ?_, rfl, rfl⟩
  show pathJoin (pathJoin "runs" (run_name ++ "_" ++ ts)) (run_name ++ "_training_log.csv") = _
  have h : ("runs/" : String) = "runs" ++ "/" := rfl
  rw [h]
  simp [pathJoin, String.append_assoc]

/-- C5: the Checkpoint spec's path is
`runs/<run_name>_<timestamp>/checkpoints/best_model.keras`, it monitors the
caller-supplied monitor string, carries the derived direction, has
save-best-only true, saves the full model (save_weights_only false), and is
verbose. -/
theorem C5_checkpoint_spec (run_name monitor : String) (patience : Int)
    (ts : String) :
    ∃ s, ((standard_callbacks run_name monitor patience ts).callbacks)[0]? =
        some (Callback.modelCheckpoint s) ∧
      s.filepath = "runs/" ++ run_name ++ "_" ++ ts ++ "/checkpoints/best_model.keras" ∧
      s.monitor = monitor ∧
      s.mode = (if ["acc", "auc", "precision", "recall"].any
          (fun k => inStr k (strLower monitor)) then Mode.max else Mode.min) ∧
      s.save_best_only = true ∧ s.save_weights_only = false ∧ s.verbose = 1 := by
  refine ⟨_, rfl, ?_, rfl, rfl, rfl, rfl, rfl⟩
  show pathJoin (pathJoin (pathJoin "runs" (run_name ++ "_" ++ ts)) "checkpoints")
      "best_model.keras" = _
  have h1 : ("runs/" : String) = "runs" ++ "/" := rfl
  have h2 : ("/checkpoints/best_model.keras" : String) =
      "/" ++ "checkpoints" ++ "/" ++ "best_model.keras" := rfl
  rw [h1, h2]
  simp [pathJoin, String.append_assoc]

/-- C6: when the monitor is the empty string, build silently derives
direction minimize by the same substring rule and still returns the full
five-spec list in the fixed order (no validation, no error). -/
theorem C6_empty_monitor_minimize (run_name : String) (patience : Int)
    (ts : String) :
    (standard_callbacks run_name "" patience ts).callbacks.map Callback.mode? =
      [some Mode.min, some Mode.min, some Mode.min, none, none] ∧
    (standard_callbacks run_name "" patience ts).callbacks.map Callback.kind =
      [CallbackKind.checkpoint, CallbackKind.reduceLR, CallbackKind.earlyStop,
       CallbackKind.metricLog, CallbackKind.csvLog] :=
  ⟨rfl, rfl⟩

/-- C7: build requests creation (idempotently, with `exist_ok`) of exactly
the two directories `runs/<run_name>_<timestamp>/checkpoints` and
`runs/<run_name>_<timestamp>/logs`; a failure of either creation is
propagated uncaught as the underlying filesystem error and nothing is
returned; if both succeed the full five-spec result is returned. No retries
or recovery occur. -/
theorem C7_makedirs_and_error_propagation {ε : Type}
    (mk : String → Bool → Except ε Unit) (run_name monitor : String)
    (patience : Int) (ts : String) :
    (standard_callbacks run_name monitor patience ts).makedirs_calls =
      [⟨pathJoin (pathJoin "runs" (run_name ++ "_" ++ ts)) "checkpoints", true⟩,
       ⟨pathJoin (pathJoin "runs" (run_name ++ "_" ++ ts)) "logs", true⟩] ∧
    (∀ e, mk (pathJoin (pathJoin "runs" (run_name ++ "_" ++ ts)) "checkpoints") true =
        Except.error e →
      standard_callbacksExc mk run_name monitor patience ts = Except.error e) ∧
    (∀ e, mk (pathJoin (pathJoin "runs" (run_name ++ "_" ++ ts)) "checkpoints") true =
        Except.ok () →
      mk (pathJoin (pathJoin "runs" (run_name ++ "_" ++ ts)) "logs") true =
        Except.error e →
      standard_callbacksExc mk run_name monitor patience ts = Except.error e) ∧
    (mk (pathJoin (pathJoin "runs" (run_name ++ "_" ++ ts)) "checkpoints") true =
        Except.ok () →
      mk (pathJoin (pathJoin "runs" (run_name ++ "_" ++ ts)) "logs") true =
        Except.ok () →
      standard_callbacksExc mk run_name monitor patience ts =
        Except.ok (standard_callbacks run_name monitor patience ts)) := by
  refine ⟨rfl, ?_, ?_, ?_⟩
  · intro e h1
    simp only [standard_callbacksExc, standard_callbacks, runMakedirs]
    rw [h1]
  · intro e h1 h2
    simp only [standard_callbacksExc, standard_callbacks, runMakedirs]
    rw [h1]
    simp only [runMakedirs]
    rw [h2]
  · intro h1 h2
    simp only [standard_callbacksExc, standard_callbacks, runMakedirs]
    rw [h1]
    simp only [runMakedirs]
    rw [h2]

/-- Witness for C7 at concrete inputs: an always-failing oracle makes the
call abort with that oracle's error, and an always-succeeding oracle yields
the full result. -/
theorem C7_makedirs_and_error_propagation_witness :
    standard_callbacksExc (fun _ _ => (Except.error "EACCES" : Except String Unit))
      "exp1" "val_loss" 7 "20240101_000000" = Except.error "EACCES" ∧
    standard_callbacksExc (fun _ _ => (Except.ok () : Except String Unit))
      "exp1" "val_loss" 7 "20240101_000000" =
      Except.ok (standard_callbacks "exp1" "val_loss" 7 "20240101_000000") :=
  ⟨(C7_makedirs_and_error_propagation
      (fun _ _ => (Except.error "EACCES" : Except String Unit))
      "exp1" "val_loss" 7 "20240101_000000").2.1 "EACCES" rfl,
   (C7_makedirs_and_error_propagation
      (fun _ _ => (Except.ok () : Except String Unit))
      "exp1" "val_loss" 7 "20240101_000000").2.2.2 rfl rfl⟩

/-- C8 counterexample: at a concrete input, build prints three status lines,
not two, so the claim that every invocation writes exactly two lines to
standard output is false. -/
theorem C8_counterexample_three_lines :
    ¬ ((standard_callbacks "default_run" "val_loss" 7
        "20240101_000000").stdout_lines.length = 2) := by
  decide

/-- C8 amended: every invocation of build writes exactly three human-readable
status lines to standard output: a header identifying the run name, a line
with the log directory, and a line with the checkpoint path. -/
theorem C8_amended_three_status_lines (run_name monitor : String)
    (patience : Int) (ts : String) :
    (standard_callbacks run_name monitor patience ts).stdout_lines =
      ["\x1b[92m[CALLBACKS]\x1b[0m Initialized for run: " ++ run_name,
       "  → Logs: " ++ pathJoin (pathJoin "runs" (run_name ++ "_" ++ ts)) "logs",
       "  → Checkpoints: " ++
         pathJoin (pathJoin (pathJoin "runs" (run_name ++ "_" ++ ts)) "checkpoints")
           "best_model.keras"] ∧
    (standard_callbacks run_name monitor patience ts).stdout_lines.length = 3 :=
  ⟨rfl, rfl⟩

/-- C9: build is deterministic given the same wall-clock instant: two
invocations with equal arguments and an equal timestamp produce identical
results, in particular identical directory requests, identical printed lines,
and an identical ordered list of specs. -/
theorem C9_deterministic (run_name monitor : String) (patience : Int)
    (ts : String) (r₁ r₂ : BuildResult)
    (h₁ : r₁ = standard_callbacks run_name monitor patience ts)
    (h₂ : r₂ = standard_callbacks run_name monitor patience ts) :
    r₁ = r₂ ∧ r₁.makedirs_calls = r₂.makedirs_calls ∧
      r₁.stdout_lines = r₂.stdout_lines ∧ r₁.callbacks = r₂.callbacks := by
  subst h₁
  subst h₂
  exact ⟨rfl, rfl, rfl, rfl⟩

/-- Witness for C9 at concrete inputs. -/
theorem C9_deterministic_witness :
    standard_callbacks "exp1" "val_accuracy" 5 "20240101_000000" =
      standard_callbacks "exp1" "val_accuracy" 5 "20240101_000000" :=
  (C9_deterministic "exp1" "val_accuracy" 5 "20240101_000000" _ _ rfl rfl).1

/-- C10: the checkpoint file extension is the fixed string "keras": for every
input the Checkpoint spec's path ends in `checkpoints/best_model.keras`. -/
theorem C10_checkpoint_extension_keras (run_name monitor : String)
    (patience : Int) (ts : String) :
    ∃ s p, ((standard_callbacks run_name monitor patience ts).callbacks)[0]? =
        some (Callback.modelCheckpoint s) ∧
      s.filepath = p ++ "checkpoints/best_model.keras" := by
  refine ⟨_, pathJoin "runs" (run_name ++ "_" ++ ts) ++ "/", rfl, ?_⟩
  show pathJoin (pathJoin (pathJoin "runs" (run_name ++ "_" ++ ts)) "checkpoints")
      "best_model.keras" = _
  have h : ("checkpoints/best_model.keras" : String) =
      "checkpoints" ++ "/" ++ "best_model.keras" := rfl
  rw [h]
  simp [pathJoin, String.append_assoc]

end Shawnaiutils
